import Mathlib

/-!
# Formal model of `src/queue.c` — a blocking FIFO queue with per-waiter condition variables

This file gives a shallow embedding of the C source `src/queue.c` and proves
properties of the embedded operations.  The C code keeps two global singly
linked lists guarded by one mutex:

* `queue`   : the item list (`head`, `tail`, `item_count`, `wait_count`,
  `visited_count`, `mtx`);
* `cvQueue` : the list of condition-variable nodes, one per blocked consumer.

The abstract state `QState` holds, for the item list, the sequence of payloads
reachable from `queue.head` (`items`), a flag recording whether `queue.tail`
is `NULL` (`tail_null`, maintained by the code independently of `head`), and
the three counters; for the cv list it holds the sequence of waiter identities
reachable from `cvQueue.head` (`waiters`).  Payloads (`void *`) and waiter
identities are modelled as `Nat`.  The mutex itself is not part of the model:
every modelled function is the body of one critical section.

`dequeue` (queue.c lines 140–205) can block in `cnd_wait`, so it is split at
the blocking point into two functions, each a single critical section:

* `dequeueEntry` — lines 141–177: either the fast path (pop and return) or
  registration of a waiter followed by `cnd_wait`;
* `dequeueWake`  — lines 179–204: the code a woken consumer runs after
  `cnd_wait` returns.  It dereferences `queue.head` and `cvQueue.head`
  unconditionally; when either list is empty that is a NULL-pointer
  dereference in C, modelled as `none`.

The `size_t` counters are modelled as `Nat` without a `% 2^64` wrap: every
`--` in the source is executed only when the corresponding count is positive
in any state satisfying the data-model invariant, so the wrap is never
exercised by the theorems below, and every `++` would need `2^64` calls to
wrap.
-/

namespace CQueue

/-- Abstract state of the two C globals `queue` and `cvQueue`. -/
structure QState where
  /-- payload sequence reachable from `queue.head`; `[]` iff `queue.head == NULL` -/
  items : List Nat
  /-- whether `queue.tail == NULL` -/
  tail_null : Bool
  /-- `queue.item_count` -/
  item_count : Nat
  /-- `queue.wait_count` -/
  wait_count : Nat
  /-- `queue.visited_count` -/
  visited_count : Nat
  /-- waiter identities reachable from `cvQueue.head`; `[]` iff `cvQueue.head == NULL` -/
  waiters : List Nat
  deriving Repr, DecidableEq

/-- `isQueueEmpty` (queue.c 96–98): `queue.head == NULL`. -/
def isQueueEmpty (s : QState) : Bool :=
  s.items.isEmpty

/-- `isCvQueueEmpty` (queue.c 88–90): `cvQueue.head == NULL`. -/
def isCvQueueEmpty (s : QState) : Bool :=
  s.waiters.isEmpty

/-- `initQueue` (queue.c 38–50): zero every counter, empty both lists.
The previous state is entirely overwritten. -/
def initQueue (_s : QState) : QState :=
  { items := []
    tail_null := true
    item_count := 0
    wait_count := 0
    visited_count := 0
    waiters := [] }

/-- The state right after `initQueue` on a fresh process. -/
def initState : QState :=
  { items := []
    tail_null := true
    item_count := 0
    wait_count := 0
    visited_count := 0
    waiters := [] }

/-- `destroyQueue` (queue.c 55–82): free every item node, free every cv node,
reset the `queue` fields to zero/NULL.  The fields `cvQueue.head` and
`cvQueue.tail` are NOT reset by the C code (they are left dangling over freed
memory); the model keeps the `waiters` field unchanged to record that, since
without a heap the dangling chain has no other representation. -/
def destroyQueue (s : QState) : QState :=
  { items := []
    tail_null := true
    item_count := 0
    wait_count := 0
    visited_count := 0
    waiters := s.waiters }

/-- Result of `enqueue`: the new state, and the condition variable signalled,
if any (`cnd_signal(cvQueue.head->cv)` is modelled by the head waiter's
identity). -/
structure EnqResult where
  state : QState
  signaled : Option Nat
  deriving Repr, DecidableEq

/-- `enqueue` (queue.c 104–134).  Records whether the item list was empty,
appends a node at the tail (two branches on `queue.head == NULL`, exactly as
the source), increments `item_count` and `visited_count`, then signals the
condition variable of the head of the cv list only when
`queue.wait_count > 0 && queue_was_empty` (line 129).  When that guard holds
with an empty cv list the C code would dereference `cvQueue.head == NULL`;
under the data-model invariant `wait_count = waiters.length` that cannot
happen, and `List.head?` returns `none` there. -/
def enqueue (item : Nat) (s : QState) : EnqResult :=
  let queue_was_empty := isQueueEmpty s
  let s' :=
    if s.items.isEmpty then
      -- queue.head == NULL: head = node; tail = node
      { s with items := [item], tail_null := false,
               item_count := s.item_count + 1,
               visited_count := s.visited_count + 1 }
    else
      -- queue.tail->next = node; queue.tail = node
      { s with items := s.items ++ [item], tail_null := false,
               item_count := s.item_count + 1,
               visited_count := s.visited_count + 1 }
  let signaled :=
    if 0 < s.wait_count ∧ queue_was_empty = true then s.waiters.head? else none
  ⟨s', signaled⟩

/-- Outcome of the first critical section of `dequeue` (queue.c 141–177). -/
inductive DeqEntry where
  /-- fast path taken: popped `item`, returning it with the mutex released -/
  | popped (item : Nat) (s : QState)
  /-- else branch taken: waiter `tid` registered at the cv-list tail,
  `wait_count` incremented, thread now blocked in `cnd_wait` -/
  | blocked (tid : Nat) (s : QState)
  /-- NULL dereference of `queue.head` (unreachable: the fast-path guard
  requires a non-empty item list) -/
  | stuck
  deriving Repr, DecidableEq

/-- First critical section of `dequeue` (queue.c 141–177), run by thread
`tid`.  Fast path only when `isCvQueueEmpty() && !isQueueEmpty()`; otherwise
a fresh cv node for `tid` is appended to the cv list (two branches on
`cvQueue.head == NULL`, as in the source), `wait_count` is incremented and
the thread blocks in `cnd_wait`. -/
def dequeueEntry (tid : Nat) (s : QState) : DeqEntry :=
  if isCvQueueEmpty s && !isQueueEmpty s then
    match s.items with
    | [] => .stuck
    | item :: rest =>
        .popped item
          { s with items := rest,
                   item_count := s.item_count - 1,
                   tail_null := if s.item_count - 1 = 0 then true else s.tail_null }
  else
    .blocked tid
      (if s.waiters.isEmpty then
        { s with waiters := [tid], wait_count := s.wait_count + 1 }
       else
        { s with waiters := s.waiters ++ [tid], wait_count := s.wait_count + 1 })

/-- Result of the post-`cnd_wait` section of `dequeue`: the popped payload,
the new state, and the condition variable signalled, if any. -/
structure WakeResult where
  item : Nat
  state : QState
  signaled : Option Nat
  deriving Repr, DecidableEq

/-- Second critical section of `dequeue` (queue.c 179–204), run by a woken
consumer after `cnd_wait` returns.  It pops `queue.head` and `cvQueue.head`
unconditionally — when either is `NULL` this is a NULL dereference in C,
modelled as `none` — decrements `item_count` (clearing `tail` when the item
list empties) and `wait_count`, and then, when `wait_count > 0` still,
signals the new head of the cv list (lines 196–198), with no test of
`item_count`. -/
def dequeueWake (s : QState) : Option WakeResult :=
  match s.items, s.waiters with
  | item :: rest, _w :: wrest =>
      let ic := s.item_count - 1
      let wc := s.wait_count - 1
      some
        ⟨item,
         { s with items := rest,
                  item_count := ic,
                  tail_null := if ic = 0 then true else s.tail_null,
                  waiters := wrest,
                  wait_count := wc },
         if 0 < wc then wrest.head? else none⟩
  | _, _ => none

/-- `tryDequeue` (queue.c 212–234).  Returns `some (none, s)` for the
`return false` branch (state untouched), `some (some item, s')` for the
`return true` branch, and `none` for the NULL dereference of `queue.head`
that the C code would commit if `item_count != 0` while the item list is
empty (impossible under the data-model invariant). -/
def tryDequeue (s : QState) : Option (Option Nat × QState) :=
  if s.item_count = 0 then
    some (none, s)
  else
    match s.items with
    | [] => none
    | item :: rest =>
        some (some item,
          { s with items := rest,
                   item_count := s.item_count - 1,
                   tail_null := if s.item_count - 1 = 0 then true else s.tail_null })

/-- Data-model invariant stated for the queue record:
`head == NULL` ⇔ `tail == NULL` ⇔ `item_count == 0`, and `wait_count`
equals the length of the waiter list. -/
def Inv (s : QState) : Prop :=
  (s.items = [] ↔ s.tail_null = true) ∧
  (s.items = [] ↔ s.item_count = 0) ∧
  s.wait_count = s.waiters.length

/-- Inductive strengthening of `Inv`: both counters agree exactly with the
lengths of their lists and the tail flag mirrors emptiness of the item
list.  This is what the code actually maintains; it implies `Inv`. -/
def InvFull (s : QState) : Prop :=
  s.tail_null = s.items.isEmpty ∧
  s.item_count = s.items.length ∧
  s.wait_count = s.waiters.length

instance (s : QState) : Decidable (Inv s) := by
  unfold Inv; infer_instance

instance (s : QState) : Decidable (InvFull s) := by
  unfold InvFull; infer_instance

/-- States reachable by running the critical sections of the API in any
order: `initQueue` (from anywhere), `enqueue`, either outcome of the first
section of `dequeue`, the post-wakeup section of `dequeue`, and
`tryDequeue`. -/
inductive Reachable : QState → Prop where
  | init (s : QState) : Reachable (initQueue s)
  | enq {s : QState} (x : Nat) : Reachable s → Reachable (enqueue x s).state
  | deqPop {s s' : QState} (t i : Nat) : Reachable s →
      dequeueEntry t s = DeqEntry.popped i s' → Reachable s'
  | deqBlock {s s' : QState} (t t' : Nat) : Reachable s →
      dequeueEntry t s = DeqEntry.blocked t' s' → Reachable s'
  | wake {s : QState} (r : WakeResult) : Reachable s →
      dequeueWake s = some r → Reachable r.state
  | tryDeq {s : QState} (o : Option Nat) (s' : QState) : Reachable s →
      tryDequeue s = some (o, s') → Reachable s'

/-- `size` (queue.c 240–242). -/
def size (s : QState) : Nat :=
  s.item_count

/-- `waiting` (queue.c 248–250). -/
def waiting (s : QState) : Nat :=
  s.wait_count

/-- `visited` (queue.c 256–258). -/
def visited (s : QState) : Nat :=
  s.visited_count

/-- Run `enqueue` once per element of `l`, left to right, in one thread. -/
def runEnqueues (l : List Nat) (s : QState) : QState :=
  match l with
  | [] => s
  | x :: xs => runEnqueues xs (enqueue x s).state

/-- Run the blocking `dequeue` `n` times sequentially in one thread.  Each
call must take the fast path (`DeqEntry.popped`): a `blocked` outcome would
deadlock a single thread and a `stuck` outcome is a NULL dereference, so
both yield `none`.  Returns the popped payloads in order. -/
def runDequeues (n : Nat) (s : QState) : Option (List Nat × QState) :=
  match n with
  | 0 => some ([], s)
  | n + 1 =>
      match dequeueEntry 0 s with
      | DeqEntry.popped item s' =>
          (runDequeues n s').map (fun p => (item :: p.1, p.2))
      | _ => none

/-! ## Helper lemmas: the strengthened invariant is inductive -/

lemma invFull_inv {s : QState} (h : InvFull s) : Inv s := by
  obtain ⟨h1, h2, h3⟩ := h
  refine ⟨?_, ?_, h3⟩ <;> cases hi : s.items <;>
    simp [hi] at h1 h2 <;> simp [hi, h1, h2]

lemma invFull_initQueue (s : QState) : InvFull (initQueue s) := by
  simp [InvFull, initQueue]

lemma invFull_enqueue (x : Nat) {s : QState} (h : InvFull s) :
    InvFull (enqueue x s).state := by
  obtain ⟨h1, h2, h3⟩ := h
  cases hi : s.items <;> simp [hi] at h1 h2 <;>
    simp [enqueue, isQueueEmpty, hi, InvFull, h2, h3]

lemma invFull_deqPop {t i : Nat} {s s' : QState}
    (h : dequeueEntry t s = DeqEntry.popped i s') (hs : InvFull s) :
    InvFull s' := by
  obtain ⟨h1, h2, h3⟩ := hs
  cases hi : s.items with
  | nil => simp [dequeueEntry, isCvQueueEmpty, isQueueEmpty, hi] at h
  | cons a rest =>
    cases hw : s.waiters with
    | cons w ws => simp [dequeueEntry, isCvQueueEmpty, isQueueEmpty, hi, hw] at h
    | nil =>
      simp [hi] at h1 h2
      simp [dequeueEntry, isCvQueueEmpty, isQueueEmpty, hi, hw] at h
      obtain ⟨rfl, rfl⟩ := h
      cases rest <;> simp [InvFull, hi, hw, h1, h2, h3]

lemma invFull_deqBlock {t t' : Nat} {s s' : QState}
    (h : dequeueEntry t s = DeqEntry.blocked t' s') (hs : InvFull s) :
    InvFull s' := by
  obtain ⟨h1, h2, h3⟩ := hs
  by_cases hg : (isCvQueueEmpty s && !isQueueEmpty s) = true
  · rw [dequeueEntry, if_pos hg] at h
    simp [isCvQueueEmpty, isQueueEmpty] at hg
    cases hi : s.items with
    | nil => simp [hi] at hg
    | cons a rest => rw [hi] at h; simp at h
  · rw [dequeueEntry, if_neg hg] at h
    cases hw : s.waiters <;> simp [hw] at h3 ⊢ <;>
      simp [hw, DeqEntry.blocked.injEq] at h <;>
      obtain ⟨-, rfl⟩ := h <;>
      simp [InvFull, hw, h1, h2, h3]

lemma invFull_wake {s : QState} {r : WakeResult}
    (h : dequeueWake s = some r) (hs : InvFull s) : InvFull r.state := by
  obtain ⟨h1, h2, h3⟩ := hs
  cases hi : s.items with
  | nil => simp [dequeueWake, hi] at h
  | cons a rest =>
    cases hw : s.waiters with
    | nil => simp [dequeueWake, hi, hw] at h
    | cons w ws =>
      simp [hi] at h1 h2
      simp [hw] at h3
      simp [dequeueWake, hi, hw] at h
      subst h
      cases rest <;> simp [InvFull, h1, h2, h3]

lemma invFull_tryDeq {s : QState} {o : Option Nat} {s' : QState}
    (h : tryDequeue s = some (o, s')) (hs : InvFull s) : InvFull s' := by
  obtain ⟨h1, h2, h3⟩ := hs
  by_cases hc : s.item_count = 0
  · rw [tryDequeue, if_pos hc] at h
    simp at h
    obtain ⟨-, rfl⟩ := h
    exact ⟨h1, h2, h3⟩
  · rw [tryDequeue, if_neg hc] at h
    cases hi : s.items with
    | nil => rw [hi] at h; cases h
    | cons a rest =>
      simp [hi] at h1 h2
      rw [hi] at h
      simp at h
      obtain ⟨-, rfl⟩ := h
      cases rest <;> simp [InvFull, hi, h1, h2, h3]

lemma reachable_invFull {s : QState} (h : Reachable s) : InvFull s := by
  induction h with
  | init s => exact invFull_initQueue s
  | enq x _ ih => exact invFull_enqueue x ih
  | deqPop t i _ heq ih => exact invFull_deqPop heq ih
  | deqBlock t t' _ heq ih => exact invFull_deqBlock heq ih
  | wake r _ heq ih => exact invFull_wake heq ih
  | tryDeq o s' _ heq ih => exact invFull_tryDeq heq ih

/-! ## Claim theorems -/

/-- Claim C6: every operation (`initQueue`, `enqueue`, both critical
sections of `dequeue`, `tryDequeue`) preserves the data-model invariant:
every state reachable through these operations satisfies
`head == NULL` ⇔ `tail == NULL` ⇔ `item_count == 0`, and
`wait_count` equals the length of the waiter list. -/
theorem ops_preserve_invariant (s : QState) (h : Reachable s) : Inv s :=
  invFull_inv (reachable_invFull h)

/-- Witness for C6: the invariant at a concrete reachable state. -/
theorem ops_preserve_invariant_witness :
    Inv (enqueue 5 (initQueue initState)).state :=
  ops_preserve_invariant _ (Reachable.enq 5 (Reachable.init initState))

/-- Claim C7: `destroyQueue` followed by `initQueue` yields exactly the
freshly initialized state, so `size`, `waiting` and `visited` all return 0
and every subsequent operation behaves as on a fresh queue. -/
theorem destroy_init_reset (s : QState) :
    initQueue (destroyQueue s) = initState ∧
    size (initQueue (destroyQueue s)) = 0 ∧
    waiting (initQueue (destroyQueue s)) = 0 ∧
    visited (initQueue (destroyQueue s)) = 0 :=
  ⟨rfl, rfl, rfl, rfl⟩

/-- Claim C1, counterexample: on the initialized queue, consumer 1 blocks,
then `enqueue 10` signals it (the item list was empty); the resulting state
still has `wait_count = 1 > 0`, yet `enqueue 20` — appending to a non-empty
item list — signals nobody.  So `enqueue` does NOT signal whenever a waiter
exists; it signals only when the item list was empty before the append. -/
theorem enqueue_signal_counterexample :
    dequeueEntry 1 initState =
      DeqEntry.blocked 1 ⟨[], true, 0, 1, 0, [1]⟩ ∧
    enqueue 10 ⟨[], true, 0, 1, 0, [1]⟩ =
      ⟨⟨[10], false, 1, 1, 1, [1]⟩, some 1⟩ ∧
    0 < (⟨[10], false, 1, 1, 1, [1]⟩ : QState).wait_count ∧
    (enqueue 20 ⟨[10], false, 1, 1, 1, [1]⟩).signaled = none := by
  decide

/-- Claim C1 (amended): `enqueue` appends the item, increments `item_count`
and `visited_count`, leaves the waiter side untouched, and signals the head
of the waiter list exactly when `wait_count > 0` AND the item list was empty
before the append. -/
theorem enqueue_signal_amended (x : Nat) (s : QState)
    (h : s.wait_count = s.waiters.length) :
    (enqueue x s).state.items = s.items ++ [x] ∧
    (enqueue x s).state.item_count = s.item_count + 1 ∧
    (enqueue x s).state.visited_count = s.visited_count + 1 ∧
    (enqueue x s).state.wait_count = s.wait_count ∧
    (enqueue x s).state.waiters = s.waiters ∧
    ((enqueue x s).signaled.isSome ↔ (0 < s.wait_count ∧ s.items = [])) ∧
    (∀ w wrest, s.waiters = w :: wrest → s.items = [] →
       (enqueue x s).signaled = some w) := by
  cases hi : s.items with
  | cons a l => simp [enqueue, isQueueEmpty, hi]
  | nil =>
    cases hw : s.waiters with
    | nil =>
      rw [hw] at h
      simp [enqueue, isQueueEmpty, hi, hw, h]
    | cons w ws =>
      rw [hw] at h
      refine ⟨?_, ?_, ?_, ?_, ?_, ?_, ?_⟩ <;>
        simp [enqueue, isQueueEmpty, hi, hw, h]

/-- Witness for the amended C1: a waiter exists and the item list is empty,
so the head waiter is signalled. -/
theorem enqueue_signal_amended_witness :
    (enqueue 9 ⟨[], true, 0, 1, 0, [4]⟩).signaled = some 4 :=
  (enqueue_signal_amended 9 ⟨[], true, 0, 1, 0, [4]⟩ rfl).2.2.2.2.2.2 4 [] rfl rfl

/-- Claim C2, counterexample: on the initialized queue, consumer 1 blocks
and `enqueue 10` leaves a state with `item_count = 1 > 0` and one still-
registered waiter; there a call to `dequeue` by consumer 2 does NOT
immediately pop the head item — it registers a second waiter and blocks,
because the branch condition is `isCvQueueEmpty() && !isQueueEmpty()`, not
`item_count > 0`. -/
theorem dequeue_branch_counterexample :
    dequeueEntry 1 initState =
      DeqEntry.blocked 1 ⟨[], true, 0, 1, 0, [1]⟩ ∧
    (enqueue 10 ⟨[], true, 0, 1, 0, [1]⟩).state = ⟨[10], false, 1, 1, 1, [1]⟩ ∧
    0 < (⟨[10], false, 1, 1, 1, [1]⟩ : QState).item_count ∧
    dequeueEntry 2 ⟨[10], false, 1, 1, 1, [1]⟩ =
      DeqEntry.blocked 2 ⟨[10], false, 1, 2, 1, [1, 2]⟩ := by
  decide

/-- Claim C2 (amended): `dequeue` pops immediately exactly when the waiter
list is empty and the item list is non-empty; otherwise — even when items
are available — it registers a waiter at the cv-list tail, increments
`wait_count`, and blocks once; after its single `cnd_wait` it pops the head
item unconditionally, with no re-check loop: a wakeup finding an empty item
list dereferences the NULL `queue.head` (modelled `none`). -/
theorem dequeue_branch_amended (t : Nat) (s : QState) :
    (∀ i rest, s.waiters = [] → s.items = i :: rest →
       dequeueEntry t s = DeqEntry.popped i
         { s with items := rest,
                  item_count := s.item_count - 1,
                  tail_null := if s.item_count - 1 = 0 then true else s.tail_null }) ∧
    (s.waiters ≠ [] ∨ s.items = [] →
       dequeueEntry t s = DeqEntry.blocked t
         (if s.waiters.isEmpty then
            { s with waiters := [t], wait_count := s.wait_count + 1 }
          else
            { s with waiters := s.waiters ++ [t], wait_count := s.wait_count + 1 })) ∧
    (∀ i rest w wrest, s.items = i :: rest → s.waiters = w :: wrest →
       ∃ r, dequeueWake s = some r ∧ r.item = i) ∧
    (∀ w wrest, s.items = [] → s.waiters = w :: wrest →
       dequeueWake s = none) := by
  refine ⟨?_, ?_, ?_, ?_⟩
  · intro i rest hw hi
    simp [dequeueEntry, isCvQueueEmpty, isQueueEmpty, hw, hi]
  · intro hcase
    rcases hcase with hw | hi
    · cases hww : s.waiters with
      | nil => exact absurd hww hw
      | cons w ws => simp [dequeueEntry, isCvQueueEmpty, hww]
    · cases hww : s.waiters <;>
        simp [dequeueEntry, isCvQueueEmpty, isQueueEmpty, hww, hi]
  · intro i rest w wrest hi hw
    exact ⟨_, by unfold dequeueWake; rw [hi, hw], rfl⟩
  · intro w wrest hi hw
    simp [dequeueWake, hi, hw]

/-- Witness for the amended C2: the fast path on a one-item queue with no
waiters, the blocking path on the resulting empty queue, and the undefined
wakeup (NULL head) on the blocked state. -/
theorem dequeue_branch_amended_witness :
    dequeueEntry 0 ⟨[3], false, 1, 0, 1, []⟩ =
      DeqEntry.popped 3 ⟨[], true, 0, 0, 1, []⟩ ∧
    dequeueEntry 4 ⟨[], true, 0, 0, 1, []⟩ =
      DeqEntry.blocked 4 ⟨[], true, 0, 1, 1, [4]⟩ ∧
    dequeueWake ⟨[], true, 0, 1, 1, [4]⟩ = none :=
  ⟨(dequeue_branch_amended 0 ⟨[3], false, 1, 0, 1, []⟩).1 3 [] rfl rfl,
   (dequeue_branch_amended 4 ⟨[], true, 0, 0, 1, []⟩).2.1 (Or.inr rfl),
   (dequeue_branch_amended 0 ⟨[], true, 0, 1, 1, [4]⟩).2.2.2 4 [] rfl rfl⟩

/-- Claim C3: the fair-wakeup contract fails on this code "regardless of
scheduling".  Failing schedule, evaluated on the model: T1, T2, T3 register
as waiters on the empty queue; the producer enqueues the first item,
signalling T1; T1's post-wakeup section pops that item and — `wait_count`
being still positive, with no check of `item_count` — signals T2 although no
item remains; if T2 then re-acquires the mutex before the producer's second
`enqueue`, its post-wakeup section dereferences the NULL item-list head
(`dequeueWake = none`) instead of returning the second item. -/
theorem fair_wakeup_crash :
    dequeueEntry 1 initState =
      DeqEntry.blocked 1 ⟨[], true, 0, 1, 0, [1]⟩ ∧
    dequeueEntry 2 ⟨[], true, 0, 1, 0, [1]⟩ =
      DeqEntry.blocked 2 ⟨[], true, 0, 2, 0, [1, 2]⟩ ∧
    dequeueEntry 3 ⟨[], true, 0, 2, 0, [1, 2]⟩ =
      DeqEntry.blocked 3 ⟨[], true, 0, 3, 0, [1, 2, 3]⟩ ∧
    enqueue 100 ⟨[], true, 0, 3, 0, [1, 2, 3]⟩ =
      ⟨⟨[100], false, 1, 3, 1, [1, 2, 3]⟩, some 1⟩ ∧
    dequeueWake ⟨[100], false, 1, 3, 1, [1, 2, 3]⟩ =
      some ⟨100, ⟨[], true, 0, 2, 1, [2, 3]⟩, some 2⟩ ∧
    dequeueWake ⟨[], true, 0, 2, 1, [2, 3]⟩ = none := by
  decide

lemma enqueue_state_fields (x : Nat) (s : QState) :
    (enqueue x s).state.items = s.items ++ [x] ∧
    (enqueue x s).state.waiters = s.waiters ∧
    (enqueue x s).state.wait_count = s.wait_count ∧
    (enqueue x s).state.item_count = s.item_count + 1 ∧
    (enqueue x s).state.visited_count = s.visited_count + 1 := by
  cases hi : s.items <;> simp [enqueue, isQueueEmpty, hi]

lemma runEnqueues_state (l : List Nat) (s : QState) :
    (runEnqueues l s).items = s.items ++ l ∧
    (runEnqueues l s).waiters = s.waiters ∧
    (runEnqueues l s).wait_count = s.wait_count ∧
    (runEnqueues l s).item_count = s.item_count + l.length ∧
    (runEnqueues l s).visited_count = s.visited_count + l.length := by
  induction l generalizing s with
  | nil => simp [runEnqueues]
  | cons x xs ih =>
    obtain ⟨e1, e2, e3, e4, e5⟩ := enqueue_state_fields x s
    obtain ⟨r1, r2, r3, r4, r5⟩ := ih (enqueue x s).state
    refine ⟨?_, ?_, ?_, ?_, ?_⟩ <;>
      simp [runEnqueues, r1, r2, r3, r4, r5, e1, e2, e3, e4, e5] <;> omega

lemma runDequeues_succ_pop {n : Nat} {s s1 : QState} {item : Nat}
    (h : dequeueEntry 0 s = DeqEntry.popped item s1) :
    runDequeues (n + 1) s =
      (runDequeues n s1).map (fun p => (item :: p.1, p.2)) := by
  simp only [runDequeues]
  rw [h]

lemma runDequeues_fast (l : List Nat) (s : QState)
    (hw : s.waiters = []) (hi : s.items = l) :
    ∃ s', runDequeues l.length s = some (l, s') ∧
      s'.items = [] ∧ s'.waiters = [] := by
  induction l generalizing s with
  | nil => exact ⟨s, rfl, hi, hw⟩
  | cons i rest ih =>
    have hd : dequeueEntry 0 s = DeqEntry.popped i
        { s with items := rest,
                 item_count := s.item_count - 1,
                 tail_null := if s.item_count - 1 = 0 then true else s.tail_null } := by
      simp [dequeueEntry, isCvQueueEmpty, isQueueEmpty, hw, hi]
    obtain ⟨s', h1, h2, h3⟩ := ih
      { s with items := rest,
               item_count := s.item_count - 1,
               tail_null := if s.item_count - 1 = 0 then true else s.tail_null }
      hw rfl
    refine ⟨s', ?_, h2, h3⟩
    rw [List.length_cons, runDequeues_succ_pop hd, h1]
    rfl

/-- Claim C4: sequential FIFO order.  For every list of payloads enqueued
left to right on a freshly initialized queue by one thread, the same number
of sequential `dequeue` calls all take the non-blocking fast path and return
exactly that list, in enqueue order. -/
theorem fifo_order (l : List Nat) :
    ∃ s', runDequeues l.length (runEnqueues l initState) = some (l, s') := by
  obtain ⟨r1, r2, -, -, -⟩ := runEnqueues_state l initState
  obtain ⟨s', h, -, -⟩ := runDequeues_fast l (runEnqueues l initState)
    (by rw [r2]; rfl) (by rw [r1]; rfl)
  exact ⟨s', h⟩

/-- Claim C5: `tryDequeue` with `item_count == 0` returns "not found" with
the state — in particular `waiting()`, the waiter list, the item list —
entirely unchanged, registering no waiter and signalling nobody (its result
type carries no signal at all); with `item_count > 0` the item list is
non-empty and the head item is popped exactly as in the non-waiting fast
branch of `dequeue` (same decrement of `item_count`, same clearing of
`tail`), returning "found" with the payload. -/
theorem tryDequeue_spec (s : QState) (hInv : Inv s) :
    (s.item_count = 0 → tryDequeue s = some (none, s)) ∧
    (0 < s.item_count → s.items ≠ []) ∧
    (∀ i rest, s.items = i :: rest →
       tryDequeue s = some (some i,
         { s with items := rest,
                  item_count := s.item_count - 1,
                  tail_null := if s.item_count - 1 = 0 then true else s.tail_null })) ∧
    (∀ i rest, s.items = i :: rest → s.waiters = [] →
       dequeueEntry 0 s = DeqEntry.popped i
         { s with items := rest,
                  item_count := s.item_count - 1,
                  tail_null := if s.item_count - 1 = 0 then true else s.tail_null }) := by
  obtain ⟨-, h2, -⟩ := hInv
  refine ⟨?_, ?_, ?_, ?_⟩
  · intro hc
    rw [tryDequeue, if_pos hc]
  · intro hc hnil
    rw [h2.mp hnil] at hc
    exact Nat.lt_irrefl 0 hc
  · intro i rest hi
    have hc : ¬ s.item_count = 0 := fun hc => by
      rw [h2.mpr hc] at hi; cases hi
    rw [tryDequeue, if_neg hc, hi]
  · intro i rest hi hw
    simp [dequeueEntry, isCvQueueEmpty, isQueueEmpty, hw, hi]

/-- Witness for C5: both branches at concrete states satisfying the
invariant. -/
theorem tryDequeue_spec_witness :
    tryDequeue initState = some (none, initState) ∧
    tryDequeue ⟨[7], false, 1, 0, 3, []⟩ =
      some (some 7, ⟨[], true, 0, 0, 3, []⟩) ∧
    dequeueEntry 0 ⟨[7], false, 1, 0, 3, []⟩ =
      DeqEntry.popped 7 ⟨[], true, 0, 0, 3, []⟩ :=
  ⟨(tryDequeue_spec initState (by decide)).1 rfl,
   (tryDequeue_spec ⟨[7], false, 1, 0, 3, []⟩ (by decide)).2.2.1 7 [] rfl,
   (tryDequeue_spec ⟨[7], false, 1, 0, 3, []⟩ (by decide)).2.2.2 7 [] rfl rfl⟩

/-- Claim C8: `size`, `waiting`, `visited` return `item_count`,
`wait_count`, `visited_count`; after 5 enqueues and 2 fast-path dequeues on
a fresh queue, `size() = 3` and `visited() = 5`; `enqueue` increments
`visited_count` by one and no other operation ever changes it, so it is
never decremented. -/
theorem counters_spec :
    (∀ s : QState, size s = s.item_count ∧ waiting s = s.wait_count ∧
       visited s = s.visited_count) ∧
    (∃ s2, runDequeues 2 (runEnqueues [1, 2, 3, 4, 5] initState) =
       some ([1, 2], s2) ∧ size s2 = 3 ∧ visited s2 = 5) ∧
    (∀ x s, (enqueue x s).state.visited_count = s.visited_count + 1) ∧
    (∀ t i : Nat, ∀ s s' : QState, dequeueEntry t s = DeqEntry.popped i s' →
       s'.visited_count = s.visited_count) ∧
    (∀ t t' : Nat, ∀ s s' : QState, dequeueEntry t s = DeqEntry.blocked t' s' →
       s'.visited_count = s.visited_count) ∧
    (∀ s r, dequeueWake s = some r → r.state.visited_count = s.visited_count) ∧
    (∀ s : QState, ∀ o : Option Nat, ∀ s' : QState,
       tryDequeue s = some (o, s') → s'.visited_count = s.visited_count) := by
  refine ⟨fun s => ⟨rfl, rfl, rfl⟩,
    ⟨⟨[3, 4, 5], false, 3, 0, 5, []⟩, by decide, rfl, rfl⟩, ?_, ?_, ?_, ?_, ?_⟩
  · intro x s
    cases hi : s.items <;> simp [enqueue, isQueueEmpty, hi]
  · intro t i s s' h
    cases hi : s.items with
    | nil => simp [dequeueEntry, isCvQueueEmpty, isQueueEmpty, hi] at h
    | cons a rest =>
      cases hw : s.waiters with
      | cons w ws => simp [dequeueEntry, isCvQueueEmpty, isQueueEmpty, hi, hw] at h
      | nil =>
        simp [dequeueEntry, isCvQueueEmpty, isQueueEmpty, hi, hw] at h
        obtain ⟨-, rfl⟩ := h
        rfl
  · intro t t' s s' h
    cases hi : s.items with
    | nil =>
      simp [dequeueEntry, isCvQueueEmpty, isQueueEmpty, hi] at h
      cases hw : s.waiters <;> rw [hw] at h <;> simp at h <;>
        obtain ⟨-, rfl⟩ := h <;> rfl
    | cons a rest =>
      cases hw : s.waiters with
      | nil => simp [dequeueEntry, isCvQueueEmpty, isQueueEmpty, hi, hw] at h
      | cons w ws =>
        simp [dequeueEntry, isCvQueueEmpty, isQueueEmpty, hi, hw] at h
        obtain ⟨-, rfl⟩ := h
        rfl
  · intro s r h
    cases hi : s.items with
    | nil => simp [dequeueWake, hi] at h
    | cons a rest =>
      cases hw : s.waiters with
      | nil => simp [dequeueWake, hi, hw] at h
      | cons w ws =>
        simp [dequeueWake, hi, hw] at h
        subst h
        rfl
  · intro s o s' h
    by_cases hc : s.item_count = 0
    · rw [tryDequeue, if_pos hc] at h
      simp at h
      obtain ⟨-, rfl⟩ := h
      rfl
    · rw [tryDequeue, if_neg hc] at h
      cases hi : s.items with
      | nil => rw [hi] at h; cases h
      | cons a rest =>
        rw [hi] at h
        simp at h
        obtain ⟨-, rfl⟩ := h
        rfl

/-- Witness for C8: the counter equalities and frame facts at concrete
inputs. -/
theorem counters_spec_witness :
    (size ⟨[9], false, 4, 2, 7, [1]⟩ = 4 ∧
       waiting ⟨[9], false, 4, 2, 7, [1]⟩ = 2 ∧
       visited ⟨[9], false, 4, 2, 7, [1]⟩ = 7) ∧
    (enqueue 0 initState).state.visited_count = initState.visited_count + 1 ∧
    (⟨[], true, 0, 0, 1, []⟩ : QState).visited_count =
      (⟨[3], false, 1, 0, 1, []⟩ : QState).visited_count ∧
    (⟨[], true, 0, 1, 1, [8]⟩ : QState).visited_count =
      (⟨[], true, 0, 0, 1, []⟩ : QState).visited_count :=
  ⟨counters_spec.1 ⟨[9], false, 4, 2, 7, [1]⟩,
   counters_spec.2.2.1 0 initState,
   counters_spec.2.2.2.1 0 3 ⟨[3], false, 1, 0, 1, []⟩ ⟨[], true, 0, 0, 1, []⟩ rfl,
   counters_spec.2.2.2.2.1 8 8 ⟨[], true, 0, 0, 1, []⟩ ⟨[], true, 0, 1, 1, [8]⟩ rfl⟩

/-- Claim C9: the post-wakeup section of `dequeue` pops the head item and
head waiter, and then signals the condition variable of the NEW head of the
waiter list exactly when the decremented `wait_count` is still positive —
with no condition whatsoever on the remaining `item_count`, so the wakeup
cascades to the next waiter even when the pop has just emptied the item
list. -/
theorem wake_cascade_signal (s : QState) (i w : Nat) (rest wrest : List Nat)
    (hi : s.items = i :: rest) (hw : s.waiters = w :: wrest)
    (hwc : s.wait_count = s.waiters.length) :
    ∃ r, dequeueWake s = some r ∧
      r.item = i ∧
      r.state.items = rest ∧
      r.state.waiters = wrest ∧
      r.state.wait_count = wrest.length ∧
      r.signaled = wrest.head? ∧
      (r.signaled.isSome ↔ 0 < r.state.wait_count) := by
  rw [hw] at hwc
  refine ⟨_, by unfold dequeueWake; rw [hi, hw], rfl, rfl, rfl, ?_, ?_⟩ <;>
    cases wrest <;> simp [hwc]

/-- Witness for C9: with two registered waiters and a single item, the
woken head waiter pops the last item and still signals waiter 2, leaving it
woken with an empty item list. -/
theorem wake_cascade_signal_witness :
    ∃ r, dequeueWake ⟨[5], false, 1, 2, 7, [1, 2]⟩ = some r ∧
      r.item = 5 ∧
      r.state.items = [] ∧
      r.state.waiters = [2] ∧
      r.state.wait_count = [2].length ∧
      r.signaled = [2].head? ∧
      (r.signaled.isSome ↔ 0 < r.state.wait_count) :=
  wake_cascade_signal ⟨[5], false, 1, 2, 7, [1, 2]⟩ 5 1 [] [2] rfl rfl rfl

/-- Claim C10: `tryDequeue` never touches `wait_count`, `visited_count` or
the waiter list; when it reports "not found" the full state — item list and
`item_count` included — is returned unchanged, and when it reports "found"
the only changes on the item side are removal of the head node and the
decrement of `item_count` (plus the tail flag the code maintains). -/
theorem tryDequeue_frame (s : QState) :
    (s.item_count = 0 → tryDequeue s = some (none, s)) ∧
    (∀ i : Nat, ∀ s' : QState, tryDequeue s = some (some i, s') →
       s'.wait_count = s.wait_count ∧
       s'.visited_count = s.visited_count ∧
       s'.waiters = s.waiters ∧
       s.items = i :: s'.items ∧
       s'.item_count = s.item_count - 1) := by
  refine ⟨?_, ?_⟩
  · intro hc
    rw [tryDequeue, if_pos hc]
  · intro i s' h
    by_cases hc : s.item_count = 0
    · rw [tryDequeue, if_pos hc] at h
      simp at h
    · rw [tryDequeue, if_neg hc] at h
      cases hi : s.items with
      | nil => rw [hi] at h; cases h
      | cons a rest =>
        rw [hi] at h
        simp at h
        obtain ⟨rfl, rfl⟩ := h
        exact ⟨rfl, rfl, rfl, rfl, rfl⟩

/-- Witness for C10: both branches at concrete states. -/
theorem tryDequeue_frame_witness :
    tryDequeue ⟨[], true, 0, 2, 9, [1, 3]⟩ =
      some (none, ⟨[], true, 0, 2, 9, [1, 3]⟩) ∧
    ((⟨[6], false, 1, 2, 9, [3]⟩ : QState).wait_count =
       (⟨[5, 6], false, 2, 2, 9, [3]⟩ : QState).wait_count ∧
     (⟨[6], false, 1, 2, 9, [3]⟩ : QState).visited_count =
       (⟨[5, 6], false, 2, 2, 9, [3]⟩ : QState).visited_count ∧
     (⟨[6], false, 1, 2, 9, [3]⟩ : QState).waiters =
       (⟨[5, 6], false, 2, 2, 9, [3]⟩ : QState).waiters ∧
     (⟨[5, 6], false, 2, 2, 9, [3]⟩ : QState).items =
       5 :: (⟨[6], false, 1, 2, 9, [3]⟩ : QState).items ∧
     (⟨[6], false, 1, 2, 9, [3]⟩ : QState).item_count =
       (⟨[5, 6], false, 2, 2, 9, [3]⟩ : QState).item_count - 1) :=
  ⟨(tryDequeue_frame ⟨[], true, 0, 2, 9, [1, 3]⟩).1 rfl,
   (tryDequeue_frame ⟨[5, 6], false, 2, 2, 9, [3]⟩).2 5
     ⟨[6], false, 1, 2, 9, [3]⟩ rfl⟩

end CQueue
